import Mathlib

/-!
Shallow embedding of the hydropower reservoir dispatch simulator and
resource-adequacy sweep of `climapower/modules/resource_adequacy_utilities.py`.

All hourly series are modelled as `List ℚ` (exact rational arithmetic in
place of floating point), capacities and bounds as `ℚ`.  The sequential
accumulate-with-closure of the source is modelled as an explicit
structurally recursive fold returning, per timestep, the new filling
level(s) together with the realized generation, exactly as recorded by the
source's `clip_filling_level` step closure.
-/

namespace Climapower

/-- Single-reservoir step of `clip_filling_level` (the `else` branch of the
`isinstance(previus_filling_level, tuple)` test): add the inflow and clip to
the upper bound, limit the generation to the water available above the lower
bound, subtract the realized generation.  Returns
`(new filling level, realized generation)`. -/
def clipStep1 (lb ub : ℚ) (S inflow gen : ℚ) : ℚ × ℚ :=
  let S' := min (S + inflow) ub
  let g' := min gen (S' - lb)
  (S' - g', g')

/-- Two-reservoir (pumped-storage) step of `clip_filling_level` (the tuple
branch): the upstream basin receives the inflow and is clipped to its upper
bound; positive generation is limited by the upstream water above the floor,
negative generation (pumping) by the downstream water above its floor and by
the upstream headroom; the downstream basin receives the realized generation
and is clipped to its upper bound.  Returns
`((new upstream level, new downstream level), realized generation)`. -/
def clipStep2 (lbU ubU lbD ubD : ℚ) (S : ℚ × ℚ) (inflow gen : ℚ) :
    (ℚ × ℚ) × ℚ :=
  let SU' := min (S.1 + inflow) ubU
  let g' :=
    if 0 < gen then min gen (SU' - lbU)
    else max gen (max (-(S.2 - lbD)) (-(ubU - SU')))
  ((SU' - g', min (S.2 + g') ubD), g')

/-- The single-reservoir accumulate of `get_generation_and_filling_level`:
fold `clipStep1` over the list of `(inflow, unbounded generation)` pairs,
emitting `(filling level, realized generation)` at every timestep (the
initial level itself is dropped by the source's `[1:]`). -/
def dispatch1 (lb ub : ℚ) : ℚ → List (ℚ × ℚ) → List (ℚ × ℚ)
  | _, [] => []
  | S, p :: ps =>
    let r := clipStep1 lb ub S p.1 p.2
    r :: dispatch1 lb ub r.1 ps

/-- The two-reservoir accumulate of `get_generation_and_filling_level`:
fold `clipStep2` over the `(inflow, unbounded generation)` pairs, emitting
`((upstream, downstream) filling levels, realized generation)` per step. -/
def dispatch2 (lbU ubU lbD ubD : ℚ) : ℚ × ℚ → List (ℚ × ℚ) → List ((ℚ × ℚ) × ℚ)
  | _, [] => []
  | S, p :: ps =>
    let r := clipStep2 lbU ubU lbD ubD S p.1 p.2
    r :: dispatch2 lbU ubU lbD ubD r.1 ps

/-- Arithmetic mean of an hourly series, as computed by
`pandas.Series.mean` (sum divided by the number of entries). -/
def mean (xs : List ℚ) : ℚ := xs.sum / (xs.length : ℚ)

/-- Elementwise sum of two aligned hourly series. -/
def addSeries (xs ys : List ℚ) : List ℚ := List.zipWith (· + ·) xs ys

/-- Elementwise difference of two aligned hourly series. -/
def subSeries (xs ys : List ℚ) : List ℚ := List.zipWith (· - ·) xs ys

/-- `pandas.Series.shift(1, fill_value=0)`: every value moves one step later,
the first entry becomes 0, the last original value is dropped and the length
is preserved (the empty series stays empty). -/
def shift1 : List ℚ → List ℚ
  | [] => []
  | xs => 0 :: xs.dropLast

/-- `.min()` of a series (the source only ever takes it on nonempty series;
the empty case is given the junk value 0). -/
def seriesMin : List ℚ → ℚ
  | [] => 0
  | x :: xs => xs.foldl min x

/-- `.max()` of a series (nonempty in the source; junk value 0 when empty). -/
def seriesMax : List ℚ → ℚ
  | [] => 0
  | x :: xs => xs.foldl max x

/-- `residual_demand.where(residual_demand > 0, 0)` applied pointwise: the
positive part of a value. -/
def posPart (x : ℚ) : ℚ := if 0 < x then x else 0

/-- The time-series bundle assembled by `get_time_series_dataset`, restricted
to the entries the resource-adequacy core reads.  Hourly series are lists of
rationals; capacities are scalars. -/
structure Dataset where
  electricityDemand : List ℚ
  onshoreWindCapacityFactor : List ℚ
  solarCapacityFactor : List ℚ
  hydropowerInflow : List ℚ
  conventionalGeneration : List ℚ
  pumpedStorageGeneration : List ℚ
  runOfRiverGeneration : List ℚ
  pumpedStorageConsumption : List ℚ
  conventionalGenerationCapacity : ℚ
  pumpedStorageGenerationCapacity : ℚ
  pumpedStorageConsumptionCapacity : ℚ
  originalReservoirFillingLevel : List ℚ

/-- The actual metered hydropower generation used by `get_residual_demand`:
conventional plus pumped-storage plus run-of-river generation, minus
pumped-storage consumption. -/
def actualHydropowerGeneration (ds : Dataset) : List ℚ :=
  subSeries
    (addSeries (addSeries ds.conventionalGeneration ds.pumpedStorageGeneration)
      ds.runOfRiverGeneration)
    ds.pumpedStorageConsumption

/-- The total generation capacity read by `get_hydropower_generation`:
conventional plus pumped-storage generation capacity. -/
def totalGenerationCapacity (ds : Dataset) : ℚ :=
  ds.conventionalGenerationCapacity + ds.pumpedStorageGenerationCapacity

/-- The total consumption capacity of `get_hydropower_generation`: the
pumped-storage consumption capacity scaled by the pumped-storage fraction,
capped at 80% of the total generation capacity. -/
def totalConsumptionCapacity (ds : Dataset) (fractionOfPumpedStorage : ℚ) : ℚ :=
  if 0.8 * totalGenerationCapacity ds <
      fractionOfPumpedStorage * ds.pumpedStorageConsumptionCapacity then
    0.8 * totalGenerationCapacity ds
  else fractionOfPumpedStorage * ds.pumpedStorageConsumptionCapacity

/-- The capacity clipping applied to the requested generation before the
dispatch fold: first limit from above by the total generation capacity, then
from below by minus the total consumption capacity (the source's two chained
`.where` calls). -/
def capacityClip (ds : Dataset) (fractionOfPumpedStorage : ℚ) (r : ℚ) : ℚ :=
  max (min r (totalGenerationCapacity ds))
    (-(totalConsumptionCapacity ds fractionOfPumpedStorage))

/-- `get_hydropower_generation`: shift the inflow series by one hour with
zero fill, clip the requested generation to the plant capacities (with the
consumption capacity itself capped at 80% of the generation capacity), then
run the dispatch fold — two-reservoir when `fractionOfPumpedStorage > 0`,
single-reservoir otherwise.  Returns
`(generation, upstream filling levels, downstream filling levels)`;
in the single-reservoir branch the downstream series is identically zero
(the source's `0 * upstream`). -/
def get_hydropower_generation (residualDemandForHydropower : List ℚ)
    (ds : Dataset) (fractionOfPumpedStorage hoursAtFullPowerConsumptionCapacity : ℚ) :
    List ℚ × List ℚ × List ℚ :=
  let inflow := shift1 ds.hydropowerInflow
  let clipped := residualDemandForHydropower.map
    (capacityClip ds fractionOfPumpedStorage)
  let maxDownstream := totalConsumptionCapacity ds fractionOfPumpedStorage *
    hoursAtFullPowerConsumptionCapacity
  let minDownstream := 0.1 * maxDownstream
  if 0 < fractionOfPumpedStorage then
    let run := dispatch2
      (seriesMin ds.originalReservoirFillingLevel)
      (seriesMax ds.originalReservoirFillingLevel)
      minDownstream maxDownstream
      (ds.originalReservoirFillingLevel.headD 0, 0.5 * maxDownstream)
      (inflow.zip clipped)
    (run.map (·.2), run.map (·.1.1), run.map (·.1.2))
  else
    let run := dispatch1
      (seriesMin ds.originalReservoirFillingLevel)
      (seriesMax ds.originalReservoirFillingLevel)
      (ds.originalReservoirFillingLevel.headD 0)
      (inflow.zip clipped)
    (run.map (·.2), run.map (·.1), run.map (fun _ => 0))

/-- `get_residual_demand`: rescale the wind and solar capacity-factor series
to the requested mean generation levels, subtract them from the demand, then
subtract the hydropower generation (the actual metered series when
`useActualHydropowerGeneration`, else the dispatched generation plus the
run-of-river series).  Returns
`(residual demand, mean wind generation, mean solar generation, hydropower generation)`. -/
def get_residual_demand (ds : Dataset)
    (windAndSolarGenerationFraction windGenerationFraction : ℚ)
    (useActualHydropowerGeneration : Bool)
    (fractionOfPumpedStorage hoursAtFullPowerConsumptionCapacity : ℚ) :
    List ℚ × ℚ × ℚ × List ℚ :=
  let meanElectricityDemand := mean ds.electricityDemand
  let actual := actualHydropowerGeneration ds
  let meanWindGeneration := windAndSolarGenerationFraction * windGenerationFraction *
    (meanElectricityDemand - mean actual)
  let meanSolarGeneration := windAndSolarGenerationFraction * (1 - windGenerationFraction) *
    (meanElectricityDemand - mean actual)
  let windGeneration := ds.onshoreWindCapacityFactor.map
    (fun c => meanWindGeneration * c / mean ds.onshoreWindCapacityFactor)
  let solarGeneration := ds.solarCapacityFactor.map
    (fun c => meanSolarGeneration * c / mean ds.solarCapacityFactor)
  let residualDemand := subSeries (subSeries ds.electricityDemand windGeneration) solarGeneration
  let hydropowerGeneration :=
    if useActualHydropowerGeneration then actual
    else addSeries
      (get_hydropower_generation residualDemand ds fractionOfPumpedStorage
        hoursAtFullPowerConsumptionCapacity).1
      ds.runOfRiverGeneration
  (subSeries residualDemand hydropowerGeneration,
    meanWindGeneration, meanSolarGeneration, hydropowerGeneration)

/-- `get_resource_adequacy`: for every pair of scenario parameters compute
the residual demand, sum its positive part, and return
`1 - unmet_demand / total_demand` as a matrix indexed by
(wind-and-solar fraction, wind fraction). -/
def get_resource_adequacy (ds : Dataset)
    (windAndSolarGenerationFractions windGenerationFractions : List ℚ)
    (useActualHydropowerGeneration : Bool)
    (fractionOfPumpedStorage hoursAtFullPowerConsumptionCapacity : ℚ) :
    List (List ℚ) :=
  windAndSolarGenerationFractions.map (fun wsf =>
    windGenerationFractions.map (fun wf =>
      let residualDemand := (get_residual_demand ds wsf wf
        useActualHydropowerGeneration fractionOfPumpedStorage
        hoursAtFullPowerConsumptionCapacity).1
      1 - (residualDemand.map posPart).sum / ds.electricityDemand.sum))

/-- `numpy.linspace(a, b, num)`: `num` equally spaced points from `a` to `b`
inclusive. -/
def linspace (a b : ℚ) (num : ℕ) : List ℚ :=
  (List.range num).map (fun i : ℕ => a + (b - a) * (i : ℚ) / ((num : ℚ) - 1))

/-- `numpy.argmax`: index of the first occurrence of the maximum value —
the head index wins unless a strictly larger value occurs later (junk value
0 on the empty list, which the source never produces). -/
def npArgmax : List ℚ → ℕ
  | [] => 0
  | [_] => 0
  | x :: y :: xs =>
    if x < (y :: xs).getD (npArgmax (y :: xs)) 0 then npArgmax (y :: xs) + 1
    else 0

/-- `get_mix_for_highest_resource_adequacy`: upsample the generation-mix
axis to 1001 equally spaced points between its first and last values,
evaluate the interpolant on the upsampled grid, and return the grid point
with the highest interpolated value.

Modelled from the spec: `scipy.interpolate.CubicSpline` is an external
collaborator, so the fitted interpolant is taken as an arbitrary function
`spl : ℚ → ℚ`; everything else follows the source. -/
def get_mix_for_highest_resource_adequacy (spl : ℚ → ℚ) (mixValues : List ℚ) : ℚ :=
  let upsampledMixValues := linspace (mixValues.headD 0) (mixValues.getLastD 0) 1001
  upsampledMixValues.getD (npArgmax (upsampledMixValues.map spl)) 0

/-- Concrete bundle used to exhibit the effect of the one-hour inflow shift:
two hours, inflow `[10, 0]`, reservoir level readings `[0, 100]` (initial
level 0, bounds `[0, 100]`), plenty of generation capacity, no pumped
storage. -/
def shiftExampleDataset : Dataset where
  electricityDemand := [5, 5]
  onshoreWindCapacityFactor := [1, 1]
  solarCapacityFactor := [1, 1]
  hydropowerInflow := [10, 0]
  conventionalGeneration := [0, 0]
  pumpedStorageGeneration := [0, 0]
  runOfRiverGeneration := [0, 0]
  pumpedStorageConsumption := [0, 0]
  conventionalGenerationCapacity := 100
  pumpedStorageGenerationCapacity := 0
  pumpedStorageConsumptionCapacity := 0
  originalReservoirFillingLevel := [0, 100]

/-- Concrete bundle used to exhibit the capacity-monotonicity failure of the
pumped-storage configuration: one hour, zero inflow, pumped-storage
consumption capacity 100 (so the 80%-of-generation-capacity cap binds),
reservoir level readings `[0, 100]`. -/
def capExampleDataset : Dataset where
  electricityDemand := [100]
  onshoreWindCapacityFactor := [1]
  solarCapacityFactor := [1]
  hydropowerInflow := [0]
  conventionalGeneration := [0]
  pumpedStorageGeneration := [0]
  runOfRiverGeneration := [0]
  pumpedStorageConsumption := [0]
  conventionalGenerationCapacity := 10
  pumpedStorageGenerationCapacity := 0
  pumpedStorageConsumptionCapacity := 100
  originalReservoirFillingLevel := [0, 100]

/-- Concrete bundle on which the resource adequacy leaves `[0, 1]`: demand
`[1]` and an hour in which pumped-storage consumption exceeds all hydropower
generation, so the actual hydropower generation is `[-1]`. -/
def negHydroDataset : Dataset where
  electricityDemand := [1]
  onshoreWindCapacityFactor := [1]
  solarCapacityFactor := [1]
  hydropowerInflow := [0]
  conventionalGeneration := [0]
  pumpedStorageGeneration := [0]
  runOfRiverGeneration := [0]
  pumpedStorageConsumption := [1]
  conventionalGenerationCapacity := 0
  pumpedStorageGenerationCapacity := 0
  pumpedStorageConsumptionCapacity := 0
  originalReservoirFillingLevel := [1]

/-- Concrete one-hour bundle with unit demand, unit capacity factors and no
hydropower at all, used to instantiate hypotheses about well-behaved
bundles. -/
def unitDataset : Dataset where
  electricityDemand := [1]
  onshoreWindCapacityFactor := [1]
  solarCapacityFactor := [1]
  hydropowerInflow := [0]
  conventionalGeneration := [0]
  pumpedStorageGeneration := [0]
  runOfRiverGeneration := [0]
  pumpedStorageConsumption := [0]
  conventionalGenerationCapacity := 0
  pumpedStorageGenerationCapacity := 0
  pumpedStorageConsumptionCapacity := 0
  originalReservoirFillingLevel := [1]

/-- The resource adequacy computed directly, following the spec's words for
Scenario D: `1 − sum(max(demand − actual_hydropower_generation, 0)) /
sum(demand)`, without going through the simulator. -/
def directResourceAdequacy (ds : Dataset) : ℚ :=
  1 - (List.zipWith (fun d h => max (d - h) 0) ds.electricityDemand
        (actualHydropowerGeneration ds)).sum / ds.electricityDemand.sum

/-- Float-semantics value: `some q` is a finite number, `none` stands for
the non-finite results (NaN/inf) that division by zero produces in the
source's floating-point arithmetic. -/
def fadd : Option ℚ → Option ℚ → Option ℚ
  | some a, some b => some (a + b)
  | _, _ => none

/-- Float-semantics subtraction; undefined operands propagate. -/
def fsub : Option ℚ → Option ℚ → Option ℚ
  | some a, some b => some (a - b)
  | _, _ => none

/-- Float-semantics multiplication; undefined operands propagate. -/
def fmul : Option ℚ → Option ℚ → Option ℚ
  | some a, some b => some (a * b)
  | _, _ => none

/-- Float-semantics division: dividing by zero (or by an undefined value)
yields an undefined result, as the source's floating-point division yields
NaN/inf rather than raising. -/
def fdiv : Option ℚ → Option ℚ → Option ℚ
  | some a, some b => if b = 0 then none else some (a / b)
  | _, _ => none

/-- Float-semantics mean of a plain series: sum over length (undefined for
the empty series). -/
def fmean (xs : List ℚ) : Option ℚ :=
  fdiv (some xs.sum) (some (xs.length : ℚ))

/-- Float-semantics sum of a series of float values; an undefined entry
makes the sum undefined, as NaN does under `numpy` summation. -/
def fsum (xs : List (Option ℚ)) : Option ℚ :=
  xs.foldr fadd (some 0)

/-- Float semantics of `residual_demand.where(residual_demand > 0, 0)`: a
comparison against NaN is `False`, so an undefined entry is replaced by
zero. -/
def fposPart : Option ℚ → Option ℚ
  | some v => if 0 < v then some v else some 0
  | none => some 0

/-- Float-semantics core of `get_residual_demand` on the
`use_actual_hydropower_generation=True` path: the same arithmetic as
`get_residual_demand`, with every division carried out in float semantics
so that a zero-mean capacity-factor series propagates undefined values
instead of being reported. -/
def residualDemandFPCore (ds : Dataset) (wsf wf : ℚ) : List (Option ℚ) :=
  let meanD := fmean ds.electricityDemand
  let meanH := fmean (actualHydropowerGeneration ds)
  let mW := fmul (some (wsf * wf)) (fsub meanD meanH)
  let mS := fmul (some (wsf * (1 - wf))) (fsub meanD meanH)
  let windGen := ds.onshoreWindCapacityFactor.map (fun c =>
    fdiv (fmul mW (some c)) (fmean ds.onshoreWindCapacityFactor))
  let solarGen := ds.solarCapacityFactor.map (fun c =>
    fdiv (fmul mS (some c)) (fmean ds.solarCapacityFactor))
  let residual := List.zipWith fsub
    (List.zipWith fsub (ds.electricityDemand.map some) windGen) solarGen
  List.zipWith fsub residual ((actualHydropowerGeneration ds).map some)

/-- Float-semantics `get_residual_demand` (actual-hydropower path) as a
fallible computation: the source contains no validation and no raise
statement, so every input — including degenerate ones — takes the
`Except.ok` branch. -/
def get_residual_demand_fp (ds : Dataset) (wsf wf : ℚ) :
    Except String (List (Option ℚ)) :=
  Except.ok (residualDemandFPCore ds wsf wf)

/-- Float-semantics `get_resource_adequacy` (actual-hydropower path) as a
fallible computation: again no input check exists in the source, so the
division by the total annual demand is carried out unconditionally and a
zero total demand propagates an undefined value through `Except.ok`. -/
def get_resource_adequacy_fp (ds : Dataset) (wsfs wfs : List ℚ) :
    Except String (List (List (Option ℚ))) :=
  Except.ok (wsfs.map (fun wsf => wfs.map (fun wf =>
    fsub (some 1)
      (fdiv (fsum ((residualDemandFPCore ds wsf wf).map fposPart))
        (some ds.electricityDemand.sum)))))

/-- Concrete degenerate bundle: the wind capacity-factor series is
identically zero (zero annual mean) and the total demand is zero. -/
def degenerateDataset : Dataset where
  electricityDemand := [0]
  onshoreWindCapacityFactor := [0]
  solarCapacityFactor := [1]
  hydropowerInflow := [0]
  conventionalGeneration := [0]
  pumpedStorageGeneration := [0]
  runOfRiverGeneration := [0]
  pumpedStorageConsumption := [0]
  conventionalGenerationCapacity := 0
  pumpedStorageGenerationCapacity := 0
  pumpedStorageConsumptionCapacity := 0
  originalReservoirFillingLevel := [1]

/-- Final filling level after folding the single-reservoir step over a list
of `(inflow, requested generation)` pairs. -/
def lastLevel (lb ub : ℚ) (S : ℚ) (ps : List (ℚ × ℚ)) : ℚ :=
  ps.foldl (fun s p => (clipStep1 lb ub s p.1 p.2).1) S

/-- Total realized generation of a single-reservoir run. -/
def realizedSum (lb ub S : ℚ) (ps : List (ℚ × ℚ)) : ℚ :=
  ((dispatch1 lb ub S ps).map Prod.snd).sum

/-- Helper: one single-reservoir step keeps the filling level within the
bounds, given a nonnegative inflow and a nonnegative requested generation. -/
theorem clipStep1_level_bounds (lb ub S i g : ℚ) (hlb : lb ≤ ub) (hS : lb ≤ S)
    (hi : 0 ≤ i) (hg : 0 ≤ g) :
    lb ≤ (clipStep1 lb ub S i g).1 ∧ (clipStep1 lb ub S i g).1 ≤ ub := by
  simp only [clipStep1]
  have h1 : lb ≤ min (S + i) ub := le_min (by linarith) hlb
  have h2 : min (S + i) ub ≤ ub := min_le_right _ _
  have h3 : min g (min (S + i) ub - lb) ≤ min (S + i) ub - lb := min_le_right _ _
  have h4 : 0 ≤ min g (min (S + i) ub - lb) := le_min hg (by linarith)
  constructor <;> linarith

/-- Helper: one two-reservoir step keeps both filling levels within their
bounds, given a nonnegative inflow (the requested generation may have either
sign). -/
theorem clipStep2_level_bounds (lbU ubU lbD ubD : ℚ) (S : ℚ × ℚ) (i g : ℚ)
    (hU : lbU ≤ ubU) (hD : lbD ≤ ubD)
    (hS1 : lbU ≤ S.1) (hS2 : lbD ≤ S.2) (hi : 0 ≤ i) :
    (lbU ≤ (clipStep2 lbU ubU lbD ubD S i g).1.1 ∧
      (clipStep2 lbU ubU lbD ubD S i g).1.1 ≤ ubU) ∧
    (lbD ≤ (clipStep2 lbU ubU lbD ubD S i g).1.2 ∧
      (clipStep2 lbU ubU lbD ubD S i g).1.2 ≤ ubD) := by
  simp only [clipStep2]
  have h1 : lbU ≤ min (S.1 + i) ubU := le_min (by linarith) hU
  have h2 : min (S.1 + i) ubU ≤ ubU := min_le_right _ _
  split_ifs with hg
  · have h3 : min g (min (S.1 + i) ubU - lbU) ≤ min (S.1 + i) ubU - lbU :=
      min_le_right _ _
    have h4 : 0 ≤ min g (min (S.1 + i) ubU - lbU) := le_min hg.le (by linarith)
    refine ⟨⟨by linarith, by linarith⟩, ?_, min_le_right _ _⟩
    exact le_min (by linarith) hD
  · have hg' : g ≤ 0 := le_of_not_lt hg
    have h5 : max g (max (-(S.2 - lbD)) (-(ubU - min (S.1 + i) ubU))) ≤ 0 :=
      max_le hg' (max_le (by linarith) (by linarith))
    have h6 : -(S.2 - lbD) ≤ max g (max (-(S.2 - lbD)) (-(ubU - min (S.1 + i) ubU))) :=
      le_trans (le_max_left _ _) (le_max_right _ _)
    have h7 : -(ubU - min (S.1 + i) ubU) ≤
        max g (max (-(S.2 - lbD)) (-(ubU - min (S.1 + i) ubU))) :=
      le_trans (le_max_right _ _) (le_max_right _ _)
    refine ⟨⟨by linarith, by linarith⟩, ?_, min_le_right _ _⟩
    exact le_min (by linarith) hD

/-- Helper: the single-reservoir dispatch fold keeps every emitted filling
level within the bounds. -/
theorem dispatch1_level_bounds (lb ub : ℚ) (hlb : lb ≤ ub) (ps : List (ℚ × ℚ)) :
    ∀ S : ℚ, lb ≤ S → (∀ p ∈ ps, 0 ≤ p.1 ∧ 0 ≤ p.2) →
      ∀ r ∈ dispatch1 lb ub S ps, lb ≤ r.1 ∧ r.1 ≤ ub := by
  induction ps with
  | nil => intro S _ _ r hr; simp [dispatch1] at hr
  | cons p ps ih =>
    intro S hS hps r hr
    have hp := hps p (List.mem_cons_self p ps)
    have hstep := clipStep1_level_bounds lb ub S p.1 p.2 hlb hS hp.1 hp.2
    simp only [dispatch1, List.mem_cons] at hr
    rcases hr with hr | hr
    · exact hr ▸ hstep
    · exact ih (clipStep1 lb ub S p.1 p.2).1 hstep.1
        (fun q hq => hps q (List.mem_cons_of_mem p hq)) r hr

/-- Helper: the two-reservoir dispatch fold keeps every emitted pair of
filling levels within the respective bounds. -/
theorem dispatch2_level_bounds (lbU ubU lbD ubD : ℚ) (hU : lbU ≤ ubU)
    (hD : lbD ≤ ubD) (ps : List (ℚ × ℚ)) :
    ∀ S : ℚ × ℚ, lbU ≤ S.1 → lbD ≤ S.2 → (∀ p ∈ ps, 0 ≤ p.1) →
      ∀ r ∈ dispatch2 lbU ubU lbD ubD S ps,
        (lbU ≤ r.1.1 ∧ r.1.1 ≤ ubU) ∧ (lbD ≤ r.1.2 ∧ r.1.2 ≤ ubD) := by
  induction ps with
  | nil => intro S _ _ _ r hr; simp [dispatch2] at hr
  | cons p ps ih =>
    intro S hS1 hS2 hps r hr
    have hp := hps p (List.mem_cons_self p ps)
    have hstep := clipStep2_level_bounds lbU ubU lbD ubD S p.1 p.2 hU hD hS1 hS2 hp
    simp only [dispatch2, List.mem_cons] at hr
    rcases hr with hr | hr
    · exact hr ▸ hstep
    · exact ih (clipStep2 lbU ubU lbD ubD S p.1 p.2).1 hstep.1.1 hstep.2.1
        (fun q hq => hps q (List.mem_cons_of_mem p hq)) r hr

/-- C1: for every run of the dispatch simulator — single-reservoir or
two-reservoir — whose initial filling level(s) lie within
`[lower_bound, upper_bound]` and whose inflow series is nonnegative, with the
requested-generation series capacity-clipped as in `get_hydropower_generation`
(which makes it nonnegative in the single-reservoir configuration, where the
consumption capacity is zero), every emitted filling level of every basin
stays within its bounds at every timestep. -/
theorem dispatch_filling_level_within_bounds
    (lb ub S0 : ℚ) (ps : List (ℚ × ℚ))
    (lbU ubU lbD ubD SU0 SD0 : ℚ) (qs : List (ℚ × ℚ))
    (hlb : lb ≤ ub) (hS0 : lb ≤ S0) (hS0' : S0 ≤ ub)
    (hps : ∀ p ∈ ps, 0 ≤ p.1 ∧ 0 ≤ p.2)
    (hU : lbU ≤ ubU) (hD : lbD ≤ ubD)
    (hSU : lbU ≤ SU0) (hSU' : SU0 ≤ ubU) (hSD : lbD ≤ SD0) (hSD' : SD0 ≤ ubD)
    (hqs : ∀ q ∈ qs, 0 ≤ q.1) :
    (∀ r ∈ dispatch1 lb ub S0 ps, lb ≤ r.1 ∧ r.1 ≤ ub) ∧
    (∀ r ∈ dispatch2 lbU ubU lbD ubD (SU0, SD0) qs,
      (lbU ≤ r.1.1 ∧ r.1.1 ≤ ubU) ∧ (lbD ≤ r.1.2 ∧ r.1.2 ≤ ubD)) :=
  ⟨dispatch1_level_bounds lb ub hlb ps S0 hS0 hps,
    dispatch2_level_bounds lbU ubU lbD ubD hU hD qs (SU0, SD0) hSU hSD hqs⟩

/-- C1 witness: the bound invariant instantiated on Scenario A (single
reservoir) and Scenario C (two reservoirs). -/
theorem dispatch_filling_level_within_bounds_witness :
    (∀ r ∈ dispatch1 0 100 50 [(10, 5), (0, 80), (0, 0)],
      (0 : ℚ) ≤ r.1 ∧ r.1 ≤ 100) ∧
    (∀ r ∈ dispatch2 0 100 0 20 (50, 10) [(0, -15)],
      ((0 : ℚ) ≤ r.1.1 ∧ r.1.1 ≤ 100) ∧ ((0 : ℚ) ≤ r.1.2 ∧ r.1.2 ≤ 20)) := by
  refine dispatch_filling_level_within_bounds 0 100 50 [(10, 5), (0, 80), (0, 0)]
    0 100 0 20 50 10 [(0, -15)] (by norm_num) (by norm_num) (by norm_num)
    ?_ (by norm_num) (by norm_num) (by norm_num) (by norm_num) (by norm_num)
    (by norm_num) ?_
  · intro p hp
    fin_cases hp <;> norm_num
  · intro q hq
    fin_cases hq <;> norm_num

/-- C2 counterexample: on Scenario A (single reservoir, bounds `[0, 100]`,
initial level 50, inflow `[10, 0, 0]`, requested generation `[5, 80, 0]`)
the simulator does not realize generation `[5, 60, 0]`: at the second step
only 55 units of water sit above the floor (the 60 units after inflow were
already reduced by the 5 units generated in the first step). -/
theorem scenario_a_realized_generation_counterexample :
    ¬ ((dispatch1 0 100 50 [(10, 5), (0, 80), (0, 0)]).map Prod.snd =
      [5, 60, 0]) := by
  norm_num [dispatch1, clipStep1]

/-- C2 (amended): on Scenario A the simulator realizes generation
`[5, 55, 0]` with filling levels `[55, 0, 0]` — the second step is clipped
to the 55 units available above the floor. -/
theorem scenario_a_dispatch_eval :
    (dispatch1 0 100 50 [(10, 5), (0, 80), (0, 0)]).map Prod.snd =
        [5, 55, 0] ∧
      (dispatch1 0 100 50 [(10, 5), (0, 80), (0, 0)]).map Prod.fst =
        [55, 0, 0] := by
  constructor <;> norm_num [dispatch1, clipStep1]

/-- C10: `get_hydropower_generation` shifts the inflow series forward by one
hour with zero fill before the dispatch fold — the shifted series has the
same length, starts with 0, and carries the inflow recorded at hour `t` into
position `t + 1`; the single-reservoir pipeline is exactly the dispatch fold
over the shifted inflow zipped with the capacity-clipped request; and on a
concrete bundle both the realized-generation and the filling-level outputs
differ from the fold applied to the unshifted inflow series. -/
theorem inflow_shift_before_dispatch :
    (∀ xs : List ℚ, (shift1 xs).length = xs.length ∧
      (xs ≠ [] → (shift1 xs).headD 1 = 0) ∧
      ∀ i : ℕ, i + 1 < xs.length → (shift1 xs).getD (i + 1) 0 = xs.getD i 0) ∧
    (∀ (residual : List ℚ) (ds : Dataset) (hours : ℚ),
      (get_hydropower_generation residual ds 0 hours).1 =
        (dispatch1 (seriesMin ds.originalReservoirFillingLevel)
          (seriesMax ds.originalReservoirFillingLevel)
          (ds.originalReservoirFillingLevel.headD 0)
          ((shift1 ds.hydropowerInflow).zip (residual.map (capacityClip ds 0)))).map
            Prod.snd ∧
      (get_hydropower_generation residual ds 0 hours).2.1 =
        (dispatch1 (seriesMin ds.originalReservoirFillingLevel)
          (seriesMax ds.originalReservoirFillingLevel)
          (ds.originalReservoirFillingLevel.headD 0)
          ((shift1 ds.hydropowerInflow).zip (residual.map (capacityClip ds 0)))).map
            Prod.fst) ∧
    ((get_hydropower_generation [5, 5] shiftExampleDataset 0 8).1 ≠
        (dispatch1 0 100 0
          (shiftExampleDataset.hydropowerInflow.zip
            ([5, 5].map (capacityClip shiftExampleDataset 0)))).map Prod.snd ∧
      (get_hydropower_generation [5, 5] shiftExampleDataset 0 8).2.1 ≠
        (dispatch1 0 100 0
          (shiftExampleDataset.hydropowerInflow.zip
            ([5, 5].map (capacityClip shiftExampleDataset 0)))).map Prod.fst) := by
  refine ⟨fun xs => ⟨?_, ?_, ?_⟩, fun residual ds hours => ⟨?_, ?_⟩, ?_, ?_⟩
  · cases xs with
    | nil => rfl
    | cons x l => simp [shift1]
  · cases xs with
    | nil => intro h; exact absurd rfl h
    | cons x l => intro _; rfl
  · cases xs with
    | nil => intro i hi; simp at hi
    | cons x l =>
      intro i hi
      have hlen : i < (x :: l).dropLast.length := by
        simp only [List.length_dropLast]; omega
      rw [show shift1 (x :: l) = 0 :: (x :: l).dropLast from rfl,
        List.getD_cons_succ, List.getD_eq_getElem _ _ hlen,
        List.getD_eq_getElem _ _ (by omega : i < (x :: l).length),
        List.getElem_dropLast]
  · simp only [get_hydropower_generation]
    norm_num
  · simp only [get_hydropower_generation]
    norm_num
  · norm_num [get_hydropower_generation, shiftExampleDataset, shift1, dispatch1,
      clipStep1, capacityClip, totalGenerationCapacity, totalConsumptionCapacity,
      seriesMin, seriesMax]
  · norm_num [get_hydropower_generation, shiftExampleDataset, shift1, dispatch1,
      clipStep1, capacityClip, totalGenerationCapacity, totalConsumptionCapacity,
      seriesMin, seriesMax]

/-- C10 witness: the index-shift law of the shifted inflow, instantiated on
the series `[3, 4]` at position 0. -/
theorem inflow_shift_before_dispatch_witness :
    (shift1 [3, 4]).getD 1 0 = 3 :=
  (inflow_shift_before_dispatch.1 [3, 4]).2.2 0 (by norm_num)

/-- C3: on Scenario C (two reservoirs, upstream bounds `[0, 100]`,
downstream bounds `[0, 20]`, initial state `(50, 10)`, zero inflow,
requested generation `-15` for one step) the realized generation is `-10`
(pumping limited by the 10 units of downstream water above its floor) and
the new state is `(60, 0)`. -/
theorem scenario_c_dispatch_eval :
    dispatch2 0 100 0 20 (50, 10) [(0, -15)] = [((60, 0), -10)] := by
  norm_num [dispatch2, clipStep2]

/-- Helper: capping by the same value inside `min` contracts differences. -/
theorem min_sub_min_le (a b c : ℚ) (h : b ≤ a) : min a c - min b c ≤ a - b := by
  rcases le_total b c with h1 | h1
  · rw [min_eq_left h1]
    have := min_le_left a c
    linarith
  · rw [min_eq_right h1]
    have := min_le_right a c
    linarith

/-- Helper: the post-step filling level of the single-reservoir step in
closed form. -/
theorem clipStep1_fst_eq_max (lb ub S i g : ℚ) :
    (clipStep1 lb ub S i g).1 = max (min (S + i) ub - g) lb := by
  simp only [clipStep1]
  rcases le_total g (min (S + i) ub - lb) with h | h
  · rw [min_eq_left h, max_eq_left (by linarith)]
  · rw [min_eq_right h, max_eq_right (by linarith)]
    ring

/-- Helper: the realized generation of a single-reservoir step is the drop
from the post-inflow level to the post-step level. -/
theorem clipStep1_snd_eq (lb ub S i g : ℚ) :
    (clipStep1 lb ub S i g).2 = min (S + i) ub - (clipStep1 lb ub S i g).1 := by
  simp only [clipStep1]
  ring

/-- Helper: one single-reservoir step, compared across two runs fed the same
inflow but a larger requested generation from a (weakly) lower level: the
larger run ends lower, and its realized generation exceeds the smaller run's
by at least the growth of the level gap. -/
theorem clipStep1_mono (lb ub SL SH i gL gH : ℚ) (hS : SH ≤ SL) (hg : gL ≤ gH) :
    (clipStep1 lb ub SH i gH).1 ≤ (clipStep1 lb ub SL i gL).1 ∧
    (clipStep1 lb ub SL i gL).2 +
        ((clipStep1 lb ub SL i gL).1 - (clipStep1 lb ub SH i gH).1) -
        (SL - SH) ≤
      (clipStep1 lb ub SH i gH).2 := by
  have hmin : min (SH + i) ub ≤ min (SL + i) ub :=
    min_le_min (by linarith) le_rfl
  have hctr : min (SL + i) ub - min (SH + i) ub ≤ SL - SH := by
    have := min_sub_min_le (SL + i) (SH + i) ub (by linarith)
    linarith
  constructor
  · rw [clipStep1_fst_eq_max, clipStep1_fst_eq_max]
    exact max_le_max (by linarith) le_rfl
  · rw [clipStep1_snd_eq, clipStep1_snd_eq]
    have h1 := clipStep1_fst_eq_max lb ub SL i gL
    have h2 := clipStep1_fst_eq_max lb ub SH i gH
    linarith [le_max_right (min (SL + i) ub - gL) lb,
      le_max_right (min (SH + i) ub - gH) lb]

/-- Helper: unfolding `lastLevel` over a cons cell. -/
theorem lastLevel_cons (lb ub S : ℚ) (p : ℚ × ℚ) (ps : List (ℚ × ℚ)) :
    lastLevel lb ub S (p :: ps) =
      lastLevel lb ub (clipStep1 lb ub S p.1 p.2).1 ps := rfl

/-- Helper: unfolding `realizedSum` over a cons cell. -/
theorem realizedSum_cons (lb ub S : ℚ) (p : ℚ × ℚ) (ps : List (ℚ × ℚ)) :
    realizedSum lb ub S (p :: ps) =
      (clipStep1 lb ub S p.1 p.2).2 +
        realizedSum lb ub (clipStep1 lb ub S p.1 p.2).1 ps := by
  simp [realizedSum, dispatch1]

/-- Helper: across two single-reservoir runs on the same inflow series with
a pointwise larger requested-generation series, the final level is lower and
the total realized generation makes up for the extra level drop. -/
theorem dispatch1_mono_aux (lb ub : ℚ) {psL psH : List (ℚ × ℚ)}
    (h : List.Forall₂ (fun p q => p.1 = q.1 ∧ p.2 ≤ q.2) psL psH) :
    ∀ SL SH : ℚ, SH ≤ SL →
      lastLevel lb ub SH psH ≤ lastLevel lb ub SL psL ∧
      realizedSum lb ub SL psL +
          (lastLevel lb ub SL psL - lastLevel lb ub SH psH) - (SL - SH) ≤
        realizedSum lb ub SH psH := by
  induction h with
  | nil =>
    intro SL SH hS
    simp only [lastLevel, realizedSum, dispatch1, List.foldl_nil, List.map_nil,
      List.sum_nil]
    constructor <;> linarith
  | @cons p q psL' psH' hpq hrest ih =>
    intro SL SH hS
    obtain ⟨hi, hg⟩ := hpq
    rw [lastLevel_cons, lastLevel_cons, realizedSum_cons, realizedSum_cons,
      ← hi]
    have hstep := clipStep1_mono lb ub SL SH p.1 p.2 q.2 hS hg
    have ih' := ih (clipStep1 lb ub SL p.1 p.2).1 (clipStep1 lb ub SH p.1 q.2).1
      hstep.1
    constructor
    · exact ih'.1
    · linarith [hstep.2, ih'.1, ih'.2]

/-- Helper: pointwise-larger requests (same inflows, same initial level)
never decrease the total realized generation of the single-reservoir fold. -/
theorem dispatch1_sum_mono (lb ub S : ℚ) {psL psH : List (ℚ × ℚ)}
    (h : List.Forall₂ (fun p q => p.1 = q.1 ∧ p.2 ≤ q.2) psL psH) :
    realizedSum lb ub S psL ≤ realizedSum lb ub S psH := by
  have h2 := dispatch1_mono_aux lb ub h S S le_rfl
  linarith [h2.1, h2.2]

/-- Helper: zipping one inflow series against two pointwise-comparable
request series yields `Forall₂`-related pair lists. -/
theorem forall2_zip_map (fA fB : ℚ → ℚ) (h : ∀ r, fA r ≤ fB r) :
    ∀ inflow res : List ℚ,
      List.Forall₂ (fun p q => p.1 = q.1 ∧ p.2 ≤ q.2)
        (inflow.zip (res.map fA)) (inflow.zip (res.map fB))
  | [], res => by
    rw [List.zip_nil_left, List.zip_nil_left]
    exact List.Forall₂.nil
  | i :: is, [] => by
    rw [List.map_nil, List.zip_nil_right, List.map_nil, List.zip_nil_right]
    exact List.Forall₂.nil
  | i :: is, r :: rs => by
    rw [List.map_cons, List.zip_cons_cons, List.map_cons, List.zip_cons_cons]
    exact List.Forall₂.cons ⟨rfl, h r⟩ (forall2_zip_map fA fB h is rs)

/-- Helper: with a zero pumped-storage fraction and nonnegative total
generation capacity, the total consumption capacity is zero. -/
theorem totalConsumptionCapacity_zero_fraction (ds : Dataset)
    (h : 0 ≤ totalGenerationCapacity ds) :
    totalConsumptionCapacity ds 0 = 0 := by
  simp only [totalConsumptionCapacity, zero_mul]
  rw [if_neg (by linarith : ¬ 0.8 * totalGenerationCapacity ds < 0)]

/-- Helper: the single-reservoir (`fraction = 0`) branch of
`get_hydropower_generation` in closed form. -/
theorem get_hydropower_generation_single_eq (residual : List ℚ) (ds : Dataset)
    (hours : ℚ) :
    (get_hydropower_generation residual ds 0 hours).1 =
      (dispatch1 (seriesMin ds.originalReservoirFillingLevel)
        (seriesMax ds.originalReservoirFillingLevel)
        (ds.originalReservoirFillingLevel.headD 0)
        ((shift1 ds.hydropowerInflow).zip
          (residual.map (capacityClip ds 0)))).map Prod.snd := by
  simp only [get_hydropower_generation]
  norm_num

/-- C7 counterexample: two identical bundles except that the total
generation capacity grows from 10 to 20; in the pumped-storage
configuration (`fraction = 1`) the larger capacity raises the
80%-of-generation cap on the consumption capacity, lets the plant pump
harder, and the total annual realized generation falls from −8 to −16. -/
theorem generation_capacity_monotonicity_counterexample :
    totalGenerationCapacity capExampleDataset <
      totalGenerationCapacity
        { capExampleDataset with conventionalGenerationCapacity := 20 } ∧
    ((get_hydropower_generation [-100]
        { capExampleDataset with conventionalGenerationCapacity := 20 }
        1 8).1).sum <
      ((get_hydropower_generation [-100] capExampleDataset 1 8).1).sum := by
  constructor <;>
    norm_num [totalGenerationCapacity, capExampleDataset,
      get_hydropower_generation, totalConsumptionCapacity, capacityClip,
      dispatch2, clipStep2, shift1, seriesMin, seriesMax]

/-- C7 (amended): in the single-reservoir configuration
(`fraction_of_pumped_storage = 0`, hence zero consumption capacity),
increasing the total generation capacity while holding every other input
fixed never decreases the total annual realized generation of the capacity
clipping followed by the dispatch fold.  (The unrestricted claim fails in
the pumped-storage configuration, where a larger generation capacity also
relaxes the 80% cap on pumping.) -/
theorem generation_capacity_monotonicity_single_reservoir
    (ds : Dataset) (capB : ℚ) (residual : List ℚ) (hours : ℚ)
    (hcap : ds.conventionalGenerationCapacity ≤ capB)
    (hpos : 0 ≤ totalGenerationCapacity ds) :
    ((get_hydropower_generation residual ds 0 hours).1).sum ≤
      ((get_hydropower_generation residual
        { ds with conventionalGenerationCapacity := capB } 0 hours).1).sum := by
  set dsB : Dataset := { ds with conventionalGenerationCapacity := capB } with hdsB
  have hposB : 0 ≤ totalGenerationCapacity dsB := by
    simp only [totalGenerationCapacity, hdsB] at hpos ⊢
    linarith
  have hclip : ∀ r : ℚ, capacityClip ds 0 r ≤ capacityClip dsB 0 r := by
    intro r
    simp only [capacityClip, totalConsumptionCapacity_zero_fraction ds hpos,
      totalConsumptionCapacity_zero_fraction dsB hposB]
    refine max_le_max (min_le_min le_rfl ?_) le_rfl
    simp only [totalGenerationCapacity, hdsB]
    linarith
  rw [get_hydropower_generation_single_eq, get_hydropower_generation_single_eq]
  have hfill : dsB.originalReservoirFillingLevel =
      ds.originalReservoirFillingLevel := rfl
  have hinflow : dsB.hydropowerInflow = ds.hydropowerInflow := rfl
  rw [hfill, hinflow]
  exact dispatch1_sum_mono (seriesMin ds.originalReservoirFillingLevel)
    (seriesMax ds.originalReservoirFillingLevel)
    (ds.originalReservoirFillingLevel.headD 0)
    (forall2_zip_map (capacityClip ds 0) (capacityClip dsB 0) hclip
      (shift1 ds.hydropowerInflow) residual)

/-- C7 witness: the single-reservoir monotonicity instantiated on the
concrete bundle with capacity raised from 100 to 200. -/
theorem generation_capacity_monotonicity_single_reservoir_witness :
    ((get_hydropower_generation [5, 5] shiftExampleDataset 0 8).1).sum ≤
      ((get_hydropower_generation [5, 5]
        { shiftExampleDataset with conventionalGenerationCapacity := 200 }
        0 8).1).sum :=
  generation_capacity_monotonicity_single_reservoir shiftExampleDataset 200
    [5, 5] 8 (by norm_num [shiftExampleDataset])
    (by norm_num [totalGenerationCapacity, shiftExampleDataset])

/-- Helper: the positive part equals `max · 0`. -/
theorem posPart_eq_max (x : ℚ) : posPart x = max x 0 := by
  unfold posPart
  split_ifs with h
  · exact (max_eq_left h.le).symm
  · exact (max_eq_right (not_lt.mp h)).symm

/-- Helper: scaling a series pulls out of the sum. -/
theorem sum_map_mul (a : ℚ) : ∀ xs : List ℚ,
    (xs.map (fun c => a * c)).sum = a * xs.sum
  | [] => by simp
  | x :: xs => by
    simp only [List.map_cons, List.sum_cons, sum_map_mul a xs]
    ring

/-- Helper: rescaling a series of nonzero mean by `a / mean` produces a
series of mean exactly `a`. -/
theorem mean_map_scale (xs : List ℚ) (a : ℚ) (h : mean xs ≠ 0) :
    mean (xs.map (fun c => a * c / mean xs)) = a := by
  have hfun : (fun c => a * c / mean xs) = (fun c => (a / mean xs) * c) := by
    funext c
    ring
  rw [hfun]
  unfold mean
  rw [List.length_map, sum_map_mul, mul_div_assoc]
  calc a / mean xs * (xs.sum / (xs.length : ℚ)) = a / mean xs * mean xs := rfl
    _ = a := div_mul_cancel₀ a h

/-- C6: for a bundle whose wind and solar capacity-factor series have
nonzero means, `get_residual_demand` (i) requests mean wind and solar
generation equal to the target fraction times the wind-or-solar split times
(mean demand minus mean actual hydropower generation), (ii) rescales each
capacity-factor series so that the per-hour generation series it builds has
exactly the requested mean, and (iii) returns demand minus wind generation
minus solar generation minus the hydropower generation it selects (actual
metered when the flag is set, dispatched plus run-of-river otherwise). -/
theorem residual_demand_rescaling_means
    (ds : Dataset) (wsf wf : ℚ) (b : Bool) (fr hrs : ℚ)
    (hW : mean ds.onshoreWindCapacityFactor ≠ 0)
    (hSo : mean ds.solarCapacityFactor ≠ 0) :
    (get_residual_demand ds wsf wf b fr hrs).2.1 =
        wsf * wf * (mean ds.electricityDemand -
          mean (actualHydropowerGeneration ds)) ∧
    (get_residual_demand ds wsf wf b fr hrs).2.2.1 =
        wsf * (1 - wf) * (mean ds.electricityDemand -
          mean (actualHydropowerGeneration ds)) ∧
    mean (ds.onshoreWindCapacityFactor.map (fun c =>
        (get_residual_demand ds wsf wf b fr hrs).2.1 * c /
          mean ds.onshoreWindCapacityFactor)) =
      (get_residual_demand ds wsf wf b fr hrs).2.1 ∧
    mean (ds.solarCapacityFactor.map (fun c =>
        (get_residual_demand ds wsf wf b fr hrs).2.2.1 * c /
          mean ds.solarCapacityFactor)) =
      (get_residual_demand ds wsf wf b fr hrs).2.2.1 ∧
    (get_residual_demand ds wsf wf b fr hrs).1 =
      subSeries
        (subSeries
          (subSeries ds.electricityDemand
            (ds.onshoreWindCapacityFactor.map (fun c =>
              (get_residual_demand ds wsf wf b fr hrs).2.1 * c /
                mean ds.onshoreWindCapacityFactor)))
          (ds.solarCapacityFactor.map (fun c =>
            (get_residual_demand ds wsf wf b fr hrs).2.2.1 * c /
              mean ds.solarCapacityFactor)))
        ((get_residual_demand ds wsf wf b fr hrs).2.2.2) :=
  ⟨rfl, rfl, mean_map_scale ds.onshoreWindCapacityFactor _ hW,
    mean_map_scale ds.solarCapacityFactor _ hSo, rfl⟩

/-- C6 witness: the rescaling contract instantiated on the concrete
two-hour bundle at a half-and-half mix. -/
theorem residual_demand_rescaling_means_witness :
    (get_residual_demand shiftExampleDataset (1/2) (1/2) true 0 8).2.1 =
        (1/2) * (1/2) * (mean shiftExampleDataset.electricityDemand -
          mean (actualHydropowerGeneration shiftExampleDataset)) ∧
    (get_residual_demand shiftExampleDataset (1/2) (1/2) true 0 8).2.2.1 =
        (1/2) * (1 - 1/2) * (mean shiftExampleDataset.electricityDemand -
          mean (actualHydropowerGeneration shiftExampleDataset)) ∧
    mean (shiftExampleDataset.onshoreWindCapacityFactor.map (fun c =>
        (get_residual_demand shiftExampleDataset (1/2) (1/2) true 0 8).2.1 * c /
          mean shiftExampleDataset.onshoreWindCapacityFactor)) =
      (get_residual_demand shiftExampleDataset (1/2) (1/2) true 0 8).2.1 ∧
    mean (shiftExampleDataset.solarCapacityFactor.map (fun c =>
        (get_residual_demand shiftExampleDataset (1/2) (1/2) true 0 8).2.2.1 * c /
          mean shiftExampleDataset.solarCapacityFactor)) =
      (get_residual_demand shiftExampleDataset (1/2) (1/2) true 0 8).2.2.1 ∧
    (get_residual_demand shiftExampleDataset (1/2) (1/2) true 0 8).1 =
      subSeries
        (subSeries
          (subSeries shiftExampleDataset.electricityDemand
            (shiftExampleDataset.onshoreWindCapacityFactor.map (fun c =>
              (get_residual_demand shiftExampleDataset (1/2) (1/2) true 0 8).2.1 * c /
                mean shiftExampleDataset.onshoreWindCapacityFactor)))
          (shiftExampleDataset.solarCapacityFactor.map (fun c =>
            (get_residual_demand shiftExampleDataset (1/2) (1/2) true 0 8).2.2.1 * c /
              mean shiftExampleDataset.solarCapacityFactor)))
        ((get_residual_demand shiftExampleDataset (1/2) (1/2) true 0 8).2.2.2) :=
  residual_demand_rescaling_means shiftExampleDataset (1/2) (1/2) true 0 8
    (by norm_num [mean, shiftExampleDataset])
    (by norm_num [mean, shiftExampleDataset])

/-- Helper: subtracting an all-zero series (of sufficient length) leaves a
series unchanged. -/
theorem subSeries_map_zero : ∀ xs ys : List ℚ, xs.length ≤ ys.length →
    subSeries xs (ys.map (fun _ => 0)) = xs
  | [], _, _ => rfl
  | x :: xs, [], h => by simp at h
  | x :: xs, y :: ys, h => by
    simp only [List.map_cons, subSeries, List.zipWith_cons_cons, sub_zero]
    exact congrArg (x :: ·) (subSeries_map_zero xs ys (by simpa using h))

/-- Helper: at zero renewable share with actual hydropower generation, the
residual demand collapses to demand minus actual hydropower generation. -/
theorem residual_demand_zero_share (ds : Dataset) (wf fr hrs : ℚ)
    (hlenW : ds.electricityDemand.length ≤ ds.onshoreWindCapacityFactor.length)
    (hlenS : ds.electricityDemand.length ≤ ds.solarCapacityFactor.length) :
    (get_residual_demand ds 0 wf true fr hrs).1 =
      subSeries ds.electricityDemand (actualHydropowerGeneration ds) := by
  simp only [get_residual_demand, zero_mul, zero_div, if_true]
  rw [subSeries_map_zero _ _ hlenW, subSeries_map_zero _ _ hlenS]

/-- Helper: `getD` after `map`, at an index inside the list. -/
theorem getD_map_lt {α β : Type} (f : α → β) (l : List α) (dA : α) (dB : β)
    (i : ℕ) (h : i < l.length) :
    (l.map f).getD i dB = f (l.getD i dA) := by
  rw [List.getD_eq_getElem _ _ (by simpa using h), List.getElem_map,
    List.getD_eq_getElem _ _ h]

/-- C4: every cell of the resource-adequacy surface equals one minus the
annual sum of the positive part of that scenario's residual demand divided
by total annual demand; and at zero renewable share with actual metered
hydropower generation the cell equals the direct formula
`1 − sum(max(demand − actual, 0)) / sum(demand)`, with no simulator run. -/
theorem resource_adequacy_refines_direct_formula
    (ds : Dataset) (b : Bool) (fr hrs : ℚ)
    (hW : mean ds.onshoreWindCapacityFactor ≠ 0)
    (hSo : mean ds.solarCapacityFactor ≠ 0)
    (hlenW : ds.electricityDemand.length ≤ ds.onshoreWindCapacityFactor.length)
    (hlenS : ds.electricityDemand.length ≤ ds.solarCapacityFactor.length) :
    (∀ (wsfs wfs : List ℚ) (i j : ℕ), i < wsfs.length → j < wfs.length →
      ((get_resource_adequacy ds wsfs wfs b fr hrs).getD i []).getD j 0 =
        1 - ((get_residual_demand ds (wsfs.getD i 0) (wfs.getD j 0) b fr
            hrs).1.map posPart).sum / ds.electricityDemand.sum) ∧
    (∀ wf : ℚ, get_resource_adequacy ds [0] [wf] true fr hrs =
      [[directResourceAdequacy ds]]) := by
  constructor
  · intro wsfs wfs i j hi hj
    have h1 : (get_resource_adequacy ds wsfs wfs b fr hrs).getD i [] =
        wfs.map (fun wf => 1 -
          ((get_residual_demand ds (wsfs.getD i 0) wf b fr
            hrs).1.map posPart).sum / ds.electricityDemand.sum) := by
      simp only [get_resource_adequacy]
      rw [getD_map_lt _ wsfs 0 [] i hi]
    rw [h1, getD_map_lt _ wfs 0 0 j hj]
  · intro wf
    simp only [get_resource_adequacy, List.map_cons, List.map_nil]
    rw [residual_demand_zero_share ds wf fr hrs hlenW hlenS]
    unfold directResourceAdequacy subSeries
    rw [List.map_zipWith]
    have hfun : (fun (a b : ℚ) => posPart (a - b)) =
        fun d h => max (d - h) 0 := by
      funext a b
      exact posPart_eq_max _
    rw [hfun]

/-- C4 witness: the surface cell and the direct formula coincide on the
concrete two-hour bundle. -/
theorem resource_adequacy_refines_direct_formula_witness :
    ((get_resource_adequacy shiftExampleDataset [1/2] [1/2] true 0
        8).getD 0 []).getD 0 0 =
      1 - ((get_residual_demand shiftExampleDataset ([(1:ℚ)/2].getD 0 0)
          ([(1:ℚ)/2].getD 0 0) true 0 8).1.map posPart).sum /
        shiftExampleDataset.electricityDemand.sum ∧
    get_resource_adequacy shiftExampleDataset [0] [1/2] true 0 8 =
      [[directResourceAdequacy shiftExampleDataset]] := by
  have h := resource_adequacy_refines_direct_formula shiftExampleDataset true 0 8
    (by norm_num [mean, shiftExampleDataset])
    (by norm_num [mean, shiftExampleDataset])
    (by norm_num [shiftExampleDataset]) (by norm_num [shiftExampleDataset])
  exact ⟨h.1 [1/2] [1/2] 0 0 (by norm_num) (by norm_num), h.2 (1/2)⟩

/-- Helper: a `getD` at an index inside the list is a member. -/
theorem getD_mem_of_lt {α : Type} {l : List α} {n : ℕ} (h : n < l.length) (d : α) :
    l.getD n d ∈ l := by
  rw [List.getD_eq_getElem _ _ h]
  exact List.getElem_mem _

/-- Helper: a `Forall₂ (· ≤ ·)` relation between series is summed. -/
theorem sum_le_sum_of_forall2 {l₁ l₂ : List ℚ}
    (h : List.Forall₂ (· ≤ ·) l₁ l₂) : l₁.sum ≤ l₂.sum := by
  induction h with
  | nil => exact le_rfl
  | cons h₁ h₂ ih =>
    simp only [List.sum_cons]
    exact add_le_add h₁ ih

/-- Helper: the positive part of a series pointwise below a pointwise
nonnegative series stays pointwise below it. -/
theorem posPart_forall2 {res dem : List ℚ}
    (h : List.Forall₂ (· ≤ ·) res dem) (hd : ∀ d ∈ dem, 0 ≤ d) :
    List.Forall₂ (· ≤ ·) (res.map posPart) dem := by
  induction h with
  | nil => exact List.Forall₂.nil
  | @cons a b l₁ l₂ h₁ h₂ ih =>
    refine List.Forall₂.cons ?_ (ih fun d hdm => hd d (List.mem_cons_of_mem _ hdm))
    have h0 := hd b (List.mem_cons_self b l₂)
    unfold posPart
    split_ifs with hx
    · exact h₁
    · exact h0

/-- C5 counterexample: a bundle with positive total annual demand on which a
resource-adequacy surface entry is −1, outside `[0, 1]` — the hour in which
pumped-storage consumption exceeds all hydropower generation makes the
actual hydropower generation negative and pushes the residual demand above
the demand. -/
theorem resource_adequacy_below_zero_counterexample :
    0 < negHydroDataset.electricityDemand.sum ∧
    get_resource_adequacy negHydroDataset [0] [0] true 0 8 = [[-1]] ∧
    ¬ (0 ≤ (-1 : ℚ)) := by
  refine ⟨by norm_num [negHydroDataset], ?_, by norm_num⟩
  norm_num [get_resource_adequacy, get_residual_demand,
    actualHydropowerGeneration, addSeries, subSeries, mean, posPart,
    negHydroDataset]

/-- C5 (amended): the resource-adequacy surface entries lie in `[0, 1]`
whenever the total annual demand is positive, the demand is hourly
nonnegative, and every scenario's residual demand stays pointwise below the
demand (as happens when the subtracted wind, solar and hydropower generation
is never negative in aggregate at any hour; a bundle with an hour of
negative actual hydropower generation violates it and can push an entry
below 0). -/
theorem resource_adequacy_range_amended
    (ds : Dataset) (wsfs wfs : List ℚ) (b : Bool) (fr hrs : ℚ)
    (hpos : 0 < ds.electricityDemand.sum)
    (hdem : ∀ d ∈ ds.electricityDemand, 0 ≤ d)
    (hres : ∀ wsf ∈ wsfs, ∀ wf ∈ wfs,
      List.Forall₂ (· ≤ ·) ((get_residual_demand ds wsf wf b fr hrs).1)
        ds.electricityDemand) :
    ∀ row ∈ get_resource_adequacy ds wsfs wfs b fr hrs,
      ∀ x ∈ row, 0 ≤ x ∧ x ≤ 1 := by
  intro row hrow x hx
  simp only [get_resource_adequacy, List.mem_map] at hrow
  obtain ⟨wsf, hwsf, rfl⟩ := hrow
  simp only [List.mem_map] at hx
  obtain ⟨wf, hwf, rfl⟩ := hx
  have hf2 := posPart_forall2 (hres wsf hwsf wf hwf) hdem
  have hle : ((get_residual_demand ds wsf wf b fr hrs).1.map posPart).sum ≤
      ds.electricityDemand.sum := sum_le_sum_of_forall2 hf2
  have hnn : 0 ≤ ((get_residual_demand ds wsf wf b fr hrs).1.map posPart).sum := by
    refine List.sum_nonneg ?_
    intro y hy
    simp only [List.mem_map] at hy
    obtain ⟨z, _, rfl⟩ := hy
    unfold posPart
    split_ifs with hz
    · exact hz.le
    · exact le_rfl
  constructor
  · have : ((get_residual_demand ds wsf wf b fr hrs).1.map posPart).sum /
        ds.electricityDemand.sum ≤ 1 := by
      rw [div_le_one hpos]
      exact hle
    linarith
  · have : 0 ≤ ((get_residual_demand ds wsf wf b fr hrs).1.map posPart).sum /
        ds.electricityDemand.sum := div_nonneg hnn hpos.le
    linarith

/-- C5 witness: the amended range law instantiated on the unit bundle and
evaluated at its only surface cell. -/
theorem resource_adequacy_range_amended_witness :
    (0 : ℚ) ≤ ((get_resource_adequacy unitDataset [0] [0] true 0
        8).getD 0 []).getD 0 0 ∧
    ((get_resource_adequacy unitDataset [0] [0] true 0 8).getD 0 []).getD 0 0 ≤
      1 := by
  have houter : ((get_resource_adequacy unitDataset [0] [0] true 0
      8).getD 0 []) ∈ get_resource_adequacy unitDataset [0] [0] true 0 8 :=
    getD_mem_of_lt (by rw [get_resource_adequacy]; norm_num) []
  have hinner : ((get_resource_adequacy unitDataset [0] [0] true 0
      8).getD 0 []).getD 0 0 ∈
      ((get_resource_adequacy unitDataset [0] [0] true 0 8).getD 0 []) :=
    getD_mem_of_lt (by rw [get_resource_adequacy]; norm_num) 0
  refine resource_adequacy_range_amended unitDataset [0] [0] true 0 8
    (by norm_num [unitDataset]) ?_ ?_ _ houter _ hinner
  · intro d hd
    simp only [unitDataset] at hd
    rcases List.mem_singleton.mp hd with rfl
    norm_num
  · intro wsf hwsf wf hwf
    rcases List.mem_singleton.mp hwsf with rfl
    rcases List.mem_singleton.mp hwf with rfl
    have hres : (get_residual_demand unitDataset 0 0 true 0 8).1 = [1] := by
      norm_num [get_residual_demand, actualHydropowerGeneration, addSeries,
        subSeries, mean, unitDataset]
    rw [hres]
    show List.Forall₂ (· ≤ ·) [1] unitDataset.electricityDemand
    exact List.Forall₂.cons le_rfl List.Forall₂.nil

/-- Helper: `npArgmax` of a nonempty list is a valid index. -/
theorem npArgmax_lt : ∀ xs : List ℚ, xs ≠ [] → npArgmax xs < xs.length
  | [], h => absurd rfl h
  | [_], _ => by simp [npArgmax]
  | x :: y :: xs, _ => by
    simp only [npArgmax]
    split_ifs
    · have := npArgmax_lt (y :: xs) (by simp)
      simp only [List.length_cons] at this ⊢
      omega
    · simp only [List.length_cons]
      omega

/-- Helper: the value at the `npArgmax` index dominates every element. -/
theorem npArgmax_le : ∀ xs : List ℚ, ∀ y ∈ xs, y ≤ xs.getD (npArgmax xs) 0
  | [], y, hy => absurd hy (List.not_mem_nil y)
  | [x], y, hy => by
    rcases List.mem_singleton.mp hy with rfl
    simp [npArgmax]
  | x :: y' :: xs, y, hy => by
    simp only [npArgmax]
    split_ifs with hx
    · rw [List.getD_cons_succ]
      rcases List.mem_cons.mp hy with rfl | hy'
      · exact hx.le
      · exact npArgmax_le (y' :: xs) y hy'
    · rw [List.getD_cons_zero]
      rcases List.mem_cons.mp hy with rfl | hy'
      · exact le_rfl
      · exact le_trans (npArgmax_le (y' :: xs) y hy') (not_lt.mp hx)

/-- Helper: the upsampled grid has the requested number of points. -/
theorem linspace_length (a b : ℚ) (n : ℕ) : (linspace a b n).length = n := by
  rw [linspace, List.length_map, List.length_range]

/-- Helper: every point of `linspace a b n` (with at least two points and
`a ≤ b`) lies in `[a, b]`. -/
theorem linspace_mem_bounds (a b : ℚ) (n : ℕ) (hn : 2 ≤ n) (hab : a ≤ b) :
    ∀ x ∈ linspace a b n, a ≤ x ∧ x ≤ b := by
  intro x hx
  rw [linspace] at hx
  obtain ⟨i, hi, rfl⟩ := List.mem_map.mp hx
  have hin : i < n := List.mem_range.mp hi
  have hd : (0 : ℚ) < (n : ℚ) - 1 := by
    have h2 : (2 : ℚ) ≤ (n : ℚ) := by exact_mod_cast hn
    linarith
  have hiq : (i : ℚ) ≤ (n : ℚ) - 1 := by
    have h1 : (i : ℚ) + 1 ≤ (n : ℚ) := by exact_mod_cast hin
    linarith
  have hnum0 : 0 ≤ (b - a) * (i : ℚ) :=
    mul_nonneg (by linarith) (Nat.cast_nonneg i)
  constructor
  · have : 0 ≤ (b - a) * (i : ℚ) / ((n : ℚ) - 1) := div_nonneg hnum0 hd.le
    linarith
  · have hstep : (b - a) * (i : ℚ) / ((n : ℚ) - 1) ≤ b - a := by
      rw [div_le_iff₀ hd]
      have := mul_le_mul_of_nonneg_left hiq (by linarith : (0 : ℚ) ≤ b - a)
      linarith
    linarith

/-- C9: `get_mix_for_highest_resource_adequacy` returns a point of the
1001-point uniform grid spanning the first and last mix values at which the
interpolant attains its maximum over that grid; in particular the returned
mix always lies between the first and last mix values.  (The interpolant
`spl` stands for the externally fitted cubic spline.) -/
theorem mix_for_highest_resource_adequacy_grid_argmax
    (spl : ℚ → ℚ) (mixValues : List ℚ)
    (hab : mixValues.headD 0 ≤ mixValues.getLastD 0) :
    (mixValues.headD 0 ≤ get_mix_for_highest_resource_adequacy spl mixValues ∧
      get_mix_for_highest_resource_adequacy spl mixValues ≤
        mixValues.getLastD 0) ∧
    get_mix_for_highest_resource_adequacy spl mixValues ∈
      linspace (mixValues.headD 0) (mixValues.getLastD 0) 1001 ∧
    ∀ x ∈ linspace (mixValues.headD 0) (mixValues.getLastD 0) 1001,
      spl x ≤ spl (get_mix_for_highest_resource_adequacy spl mixValues) := by
  set a := mixValues.headD 0 with ha
  set b := mixValues.getLastD 0 with hb
  set up := linspace a b 1001 with hup
  have hupne : up ≠ [] := by
    intro h
    have := linspace_length a b 1001
    rw [← hup, h] at this
    simp at this
  have hjlt : npArgmax (up.map spl) < up.length := by
    have h1 := npArgmax_lt (up.map spl) (by simpa using hupne)
    simpa using h1
  have hresult : get_mix_for_highest_resource_adequacy spl mixValues =
      up.getD (npArgmax (up.map spl)) 0 := rfl
  have hmem : get_mix_for_highest_resource_adequacy spl mixValues ∈ up := by
    rw [hresult]
    exact getD_mem_of_lt hjlt 0
  refine ⟨linspace_mem_bounds a b 1001 (by norm_num) hab _ hmem, hmem, ?_⟩
  intro x hx
  have hx' : spl x ∈ up.map spl := List.mem_map_of_mem spl hx
  have hle := npArgmax_le (up.map spl) (spl x) hx'
  rwa [hresult, ← getD_map_lt spl up 0 0 _ hjlt]

/-- C9 witness: the grid-argmax contract instantiated on the mix axis
`[0, 1]` with the identity interpolant. -/
theorem mix_for_highest_resource_adequacy_grid_argmax_witness :
    (([(0 : ℚ), 1].headD 0 ≤
        get_mix_for_highest_resource_adequacy (fun x => x) [0, 1] ∧
      get_mix_for_highest_resource_adequacy (fun x => x) [0, 1] ≤
        [(0 : ℚ), 1].getLastD 0) ∧
    get_mix_for_highest_resource_adequacy (fun x => x) [0, 1] ∈
      linspace ([(0 : ℚ), 1].headD 0) ([(0 : ℚ), 1].getLastD 0) 1001 ∧
    ∀ x ∈ linspace ([(0 : ℚ), 1].headD 0) ([(0 : ℚ), 1].getLastD 0) 1001,
      x ≤ get_mix_for_highest_resource_adequacy (fun x => x) [0, 1]) :=
  mix_for_highest_resource_adequacy_grid_argmax (fun x => x) [0, 1]
    (by norm_num)

/-- Helper: an undefined right operand makes a float subtraction undefined. -/
theorem fsub_none_right (a : Option ℚ) : fsub a none = none := by
  cases a <;> rfl

/-- Helper: an undefined left operand makes a float subtraction undefined. -/
theorem fsub_none_left (b : Option ℚ) : fsub none b = none := by
  cases b <;> rfl

/-- Helper: an undefined divisor makes a float division undefined. -/
theorem fdiv_none_right (a : Option ℚ) : fdiv a none = none := by
  cases a <;> rfl

/-- Helper: a zero divisor makes a float division undefined. -/
theorem fdiv_some_zero (a : Option ℚ) : fdiv a (some 0) = none := by
  cases a <;> simp [fdiv]

/-- Helper: dividing anything by the mean of a series whose sum is zero is
undefined. -/
theorem fdiv_mean_zero_sum (xs : List ℚ) (h : xs.sum = 0) (y : Option ℚ) :
    fdiv y (fmean xs) = none := by
  rcases eq_or_ne ((xs.length : ℕ) : ℚ) 0 with hl | hl
  · rw [show fmean xs = none by simp [fmean, h, fdiv, hl]]
    exact fdiv_none_right y
  · rw [show fmean xs = some 0 by simp [fmean, h, fdiv, hl]]
    exact fdiv_some_zero y

/-- Helper: rescaling by a zero-sum capacity-factor series produces an
all-undefined generation series. -/
theorem map_div_zero_mean (CF : List ℚ) (num : ℚ → Option ℚ)
    (h : CF.sum = 0) :
    ∀ w ∈ CF.map (fun c => fdiv (num c) (fmean CF)), w = none := by
  intro w hw
  obtain ⟨c, _, rfl⟩ := List.mem_map.mp hw
  exact fdiv_mean_zero_sum CF h (num c)

/-- Helper: an all-undefined right series makes every float-series
difference undefined. -/
theorem zipWith_fsub_all_none_right :
    ∀ as bs : List (Option ℚ), (∀ b ∈ bs, b = none) →
      ∀ x ∈ List.zipWith fsub as bs, x = none
  | [], _, _, x, hx => by simp at hx
  | _ :: _, [], _, x, hx => by simp at hx
  | a :: as, b :: bs, hb, x, hx => by
    rw [List.zipWith_cons_cons] at hx
    rcases List.mem_cons.mp hx with rfl | hx'
    · rw [hb b (List.mem_cons_self b bs)]
      exact fsub_none_right a
    · exact zipWith_fsub_all_none_right as bs
        (fun y hy => hb y (List.mem_cons_of_mem b hy)) x hx'

/-- Helper: an all-undefined left series makes every float-series
difference undefined. -/
theorem zipWith_fsub_all_none_left :
    ∀ as bs : List (Option ℚ), (∀ a ∈ as, a = none) →
      ∀ x ∈ List.zipWith fsub as bs, x = none
  | [], _, _, x, hx => by simp at hx
  | _ :: _, [], _, x, hx => by simp at hx
  | a :: as, b :: bs, ha, x, hx => by
    rw [List.zipWith_cons_cons] at hx
    rcases List.mem_cons.mp hx with rfl | hx'
    · rw [ha a (List.mem_cons_self a as)]
      exact fsub_none_left b
    · exact zipWith_fsub_all_none_left as bs
        (fun y hy => ha y (List.mem_cons_of_mem a hy)) x hx'

/-- C8 counterexample: on a bundle whose wind capacity-factor series has
zero annual mean and whose total demand is zero, neither computation raises:
the residual-demand computation returns (`Except.ok`) a series containing
an undefined (NaN) entry, and the resource-adequacy computation returns a
surface containing an undefined entry. -/
theorem degenerate_input_returns_undefined_counterexample :
    get_residual_demand_fp degenerateDataset (1/2) (1/2) =
      Except.ok [none] ∧
    get_resource_adequacy_fp degenerateDataset [0] [0] =
      Except.ok [[none]] := by
  constructor <;>
    norm_num [get_residual_demand_fp, get_resource_adequacy_fp,
      residualDemandFPCore, actualHydropowerGeneration, addSeries, subSeries,
      fmean, fdiv, fmul, fsub, fadd, fsum, fposPart, degenerateDataset]

/-- C8 (amended): the computations do not fail fast.  A capacity-factor
series with zero annual mean makes `get_residual_demand` return
(`Except.ok`) an entirely undefined (NaN) residual-demand series, and a
zero total annual demand makes `get_resource_adequacy` return a surface all
of whose entries are undefined — in both cases the degenerate value is
silently propagated; callers must guarantee nonzero means and demand. -/
theorem degenerate_input_propagates_undefined
    (ds : Dataset) (wsf wf : ℚ) (wsfs wfs : List ℚ) :
    (ds.onshoreWindCapacityFactor.sum = 0 →
      ∃ r, get_residual_demand_fp ds wsf wf = Except.ok r ∧
        ∀ x ∈ r, x = none) ∧
    (ds.electricityDemand.sum = 0 →
      ∃ m, get_resource_adequacy_fp ds wsfs wfs = Except.ok m ∧
        ∀ row ∈ m, ∀ x ∈ row, x = none) := by
  constructor
  · intro hsum
    refine ⟨residualDemandFPCore ds wsf wf, rfl, ?_⟩
    intro x hx
    simp only [residualDemandFPCore] at hx
    refine zipWith_fsub_all_none_left _ _ ?_ x hx
    intro y hy
    refine zipWith_fsub_all_none_left _ _ ?_ y hy
    intro z hz
    refine zipWith_fsub_all_none_right _ _ ?_ z hz
    exact map_div_zero_mean ds.onshoreWindCapacityFactor _ hsum
  · intro hdem
    refine ⟨_, rfl, ?_⟩
    intro row hrow x hx
    obtain ⟨wsf', _, rfl⟩ := List.mem_map.mp hrow
    obtain ⟨wf', _, rfl⟩ := List.mem_map.mp hx
    rw [hdem, fdiv_some_zero]
    exact fsub_none_right _

/-- C8 witness: the NaN-propagation law instantiated on the concrete
degenerate bundle. -/
theorem degenerate_input_propagates_undefined_witness :
    (∃ r, get_residual_demand_fp degenerateDataset (1/2) (1/2) =
        Except.ok r ∧ ∀ x ∈ r, x = none) ∧
    (∃ m, get_resource_adequacy_fp degenerateDataset [0] [0] =
        Except.ok m ∧ ∀ row ∈ m, ∀ x ∈ row, x = none) := by
  have h := degenerate_input_propagates_undefined degenerateDataset (1/2)
    (1/2) [0] [0]
  exact ⟨h.1 (by norm_num [degenerateDataset]),
    h.2 (by norm_num [degenerateDataset])⟩

end Climapower
